import Mathlib

/-!
Shallow embedding of the DuckDB federated-query-engine HTTP client
(src/duckdb_client.py, class DuckDBFQEClient) and of the test script's
query helper (src/test_connection_updated.py, class DuckDBFQETester).

Python values that can come back from `response.json()` are modelled by
`PyVal`; Python exceptions by `PyExc`, whose constructor is the exception
class (the "kind" a Python `except` clause dispatches on).  The outcome of
one HTTP request made through `requests` is modelled by `HttpOutcome`:
either a response (status code, body text, and the result of
`response.json()` on that body — `some v` when the body parses as JSON,
`none` when `response.json()` raises a JSON decode error) or a raised
`requests.exceptions.RequestException` (connection refused, timeout, ...).
Functions that perform a request take the outcome (or a `send` oracle
mapping the sent query string to an outcome) as an argument; everything
else is translated directly from the Python source.

The pandas calls in `execute_query_to_dataframe` are modelled by
`pdDataFrameCols` (for `pd.DataFrame(data, columns=cols)` on row-lists)
and `pdDataFrameOfList` (for `pd.DataFrame(lst)`): list-of-dicts input
yields the union of keys in first-seen order as columns with missing keys
becoming null; list-of-lists input yields a RangeIndex of integer column
labels with short rows padded by null; a list of scalars yields the single
column 0.  Shapes outside what the service can produce and the claims
exercise are mapped to errors and marked as unmodelled.
-/

/-- Python values as produced by parsing a JSON response body
(`response.json()`): None, booleans, integers, strings, lists and
string-keyed dicts (Python dicts preserve insertion order, hence an
association list). -/
inductive PyVal where
  | null : PyVal
  | bool (b : Bool) : PyVal
  | int (n : Int) : PyVal
  | str (s : String) : PyVal
  | list (xs : List PyVal) : PyVal
  | dict (kvs : List (String × PyVal)) : PyVal

/-- Python exceptions, one constructor per exception class the embedded
code can raise or catch. -/
inductive PyExc where
  | exception (msg : String) : PyExc
  | typeError (msg : String) : PyExc
  | valueError (msg : String) : PyExc
  | keyError (msg : String) : PyExc
  | indexError (msg : String) : PyExc
  | attributeError (msg : String) : PyExc
  | requestException (msg : String) : PyExc

/-- The exception class name: what a Python caller can dispatch on with
`except SomeClass`. -/
def PyExc.kind : PyExc → String
  | .exception _ => "Exception"
  | .typeError _ => "TypeError"
  | .valueError _ => "ValueError"
  | .keyError _ => "KeyError"
  | .indexError _ => "IndexError"
  | .attributeError _ => "AttributeError"
  | .requestException _ => "RequestException"

/-- The Python type name of a value, as it appears in TypeError messages. -/
def PyVal.typeName : PyVal → String
  | .null => "NoneType"
  | .bool _ => "bool"
  | .int _ => "int"
  | .str _ => "str"
  | .list _ => "list"
  | .dict _ => "dict"

/-- Python truthiness (`if v:`). -/
def pyTruthy : PyVal → Bool
  | .null => false
  | .bool b => b
  | .int n => n != 0
  | .str s => !s.isEmpty
  | .list xs => !xs.isEmpty
  | .dict kvs => !kvs.isEmpty

/-- A naive substring test, modelling the Python `in` operator on strings. -/
def substrOf (needle hay : String) : Bool :=
  (List.range (hay.length + 1)).any
    (fun i => needle.isPrefixOf (String.mk (hay.data.drop i)))

/-- The Python expression `needle in v` for a string `needle`: key
membership for dicts, element equality for lists (a string compares equal
only to an equal string), substring test for strings; any other left
operand raises TypeError, as Python does for non-iterables. -/
def pyContains (v : PyVal) (needle : String) : Except PyExc Bool :=
  match v with
  | .dict kvs => .ok (kvs.any (fun kv => kv.1 == needle))
  | .list xs =>
      .ok (xs.any (fun x => match x with | .str s => s == needle | _ => false))
  | .str s => .ok (substrOf needle s)
  | other =>
      .error (.typeError ("argument of type " ++ other.typeName ++ " is not iterable"))

/-- The Python expression `v[key]` for a string `key`. -/
def pySubscriptStr (v : PyVal) (key : String) : Except PyExc PyVal :=
  match v with
  | .dict kvs =>
      match kvs.find? (fun kv => kv.1 == key) with
      | some kv => .ok kv.2
      | none => .error (.keyError key)
  | .list _ => .error (.typeError "list indices must be integers or slices, not str")
  | .str _ => .error (.typeError "string indices must be integers")
  | other => .error (.typeError (other.typeName ++ " object is not subscriptable"))

/-- The Python expression `v[0]`. -/
def pySubscriptZero (v : PyVal) : Except PyExc PyVal :=
  match v with
  | .list (x :: _) => .ok x
  | .list [] => .error (.indexError "list index out of range")
  | .str s =>
      match s.data with
      | c :: _ => .ok (.str (String.mk [c]))
      | [] => .error (.indexError "string index out of range")
  | .dict _ => .error (.keyError "0")
  | other => .error (.typeError (other.typeName ++ " object is not subscriptable"))

/-- The Python expression `kvs.get(key, default)` on a dict. -/
def pyDictGet (kvs : List (String × PyVal)) (key : String) (default : PyVal) : PyVal :=
  match kvs.find? (fun kv => kv.1 == key) with
  | some kv => kv.2
  | none => default

/-- The outcome of one HTTP request made through `requests`: a response
(status code, body text, and what `response.json()` would give — `some v`
if the body parses as JSON, `none` if `response.json()` raises a JSON
decode error), or a raised `requests.exceptions.RequestException`. -/
inductive HttpOutcome where
  | response (statusCode : Nat) (text : String) (jsonBody : Option PyVal) : HttpOutcome
  | requestException (msg : String) : HttpOutcome

namespace DuckDBFQEClient

/-- The message of the JSON decode error `response.json()` raises on a
body that is not JSON (the exact text is the decoder's; only its presence
matters to the claims). -/
def jsonDecodeErrMsg : String := "Expecting value: line 1 column 1 (char 0)"

/-- DuckDBFQEClient.is_healthy (src/duckdb_client.py lines 29-35): a GET of
/health inside try; True exactly when the status code is 200, and any
RequestException is caught and turned into False. -/
def is_healthy (outcome : HttpOutcome) : Bool :=
  match outcome with
  | .response statusCode _ _ => statusCode == 200
  | .requestException _ => false

/-- One WaitTrace records what a run of the wait_for_ready loop did: its
return value, how many is_healthy probes it made and how many
time.sleep(2) calls it performed. -/
structure WaitTrace where
  result : Bool
  probes : Nat
  sleeps : Nat

/-- The while loop of DuckDBFQEClient.wait_for_ready (src/duckdb_client.py
lines 47-52), with wall-clock time made discrete: `t` is the elapsed time
in seconds when the loop condition `time.time() - start_time < max_wait`
is tested, probes are instantaneous, and each `time.sleep(2)` advances the
clock by 2.  `healthy t` is the result of the is_healthy probe made at
elapsed time `t`. -/
def waitLoop (healthy : Nat → Bool) (max_wait t : Nat) : WaitTrace :=
  if h : t < max_wait then
    if healthy t then
      ⟨true, 1, 0⟩
    else
      let rest := waitLoop healthy max_wait (t + 2)
      ⟨rest.result, rest.probes + 1, rest.sleeps + 1⟩
  else
    ⟨false, 0, 0⟩
termination_by max_wait - t
decreasing_by omega

/-- DuckDBFQEClient.wait_for_ready (src/duckdb_client.py lines 37-52):
runs the polling loop from elapsed time 0 and returns its boolean. -/
def wait_for_ready (healthy : Nat → Bool) (max_wait : Nat) : Bool :=
  (waitLoop healthy max_wait 0).result

/-- DuckDBFQEClient.execute_query (src/duckdb_client.py lines 54-86),
as a function of the outcome of the POST to /query.  On a 200 response it
returns `response.json()`; if that raises a JSON decode error, the error
(a RequestException subclass in `requests`) is caught by the surrounding
`except requests.exceptions.RequestException` and re-raised as a plain
Exception.  On a non-200 response it raises a plain Exception carrying the
status code and body text; that Exception is not a RequestException, so
the handler does not catch it.  On a transport failure the caught
RequestException is re-raised as a plain Exception. -/
def execute_query (outcome : HttpOutcome) : Except PyExc PyVal :=
  match outcome with
  | .response statusCode text jsonBody =>
      if statusCode = 200 then
        match jsonBody with
        | some v => .ok v
        | none => .error (.exception ("Request failed: " ++ jsonDecodeErrMsg))
      else
        .error (.exception
          ("Query failed with status " ++ toString statusCode ++ ": " ++ text))
  | .requestException msg => .error (.exception ("Request failed: " ++ msg))

end DuckDBFQEClient

namespace DuckDBFQETester

/-- DuckDBFQETester.execute_query (src/test_connection_updated.py lines
36-56): on a 200 response, `response.json()` if the body parses, otherwise
the raw text wrapped as {"result": text}; on a non-200 response or any
exception it prints a message and returns None. -/
def execute_query (outcome : HttpOutcome) : Option PyVal :=
  match outcome with
  | .response statusCode text jsonBody =>
      if statusCode = 200 then
        match jsonBody with
        | some v => some v
        | none => some (.dict [("result", .str text)])
      else
        none
  | .requestException _ => none

end DuckDBFQETester

/-- A pandas DataFrame, reduced to what the client observes of one: an
ordered sequence of column labels and an ordered sequence of rows.  Labels
are `PyVal`s because pandas uses the strings of a dict-derived frame and
the integers of a RangeIndex alike. -/
structure DataFrame where
  columns : List PyVal
  rows : List (List PyVal)

/-- Every element as a row list (`some` when all elements are Python
lists), the shape `pd.DataFrame` treats as nested row data. -/
def allLists : List PyVal → Option (List (List PyVal))
  | [] => some []
  | .list r :: rest => (allLists rest).map (fun rs => r :: rs)
  | _ => none

/-- Every element as a dict (`some` when all elements are Python dicts),
the shape `pd.DataFrame` treats as a list of records. -/
def allDicts : List PyVal → Option (List (List (String × PyVal)))
  | [] => some []
  | .dict o :: rest => (allDicts rest).map (fun os => o :: os)
  | _ => none

/-- True for values pandas treats as scalars (neither list nor dict). -/
def isScalar : PyVal → Bool
  | .list _ => false
  | .dict _ => false
  | _ => true

/-- The width pandas gives nested row data: the longest row. -/
def maxWidth (rows : List (List PyVal)) : Nat :=
  rows.foldl (fun m r => max m r.length) 0

/-- A row padded on the right with null up to width `w`, as pandas pads
ragged nested rows with NaN. -/
def padRow (w : Nat) (r : List PyVal) : List PyVal :=
  r ++ List.replicate (w - r.length) PyVal.null

/-- The union of the records' keys in first-seen order: the column order
pandas derives from a list of dicts. -/
def firstSeenKeys (objs : List (List (String × PyVal))) : List String :=
  objs.foldl
    (fun acc o =>
      o.foldl (fun acc2 kv => if acc2.contains kv.1 then acc2 else acc2 ++ [kv.1]) acc)
    []

/-- The value a record gives a column key, null when the key is absent (a
missing key becomes NaN in pandas). -/
def lookupOrNull (o : List (String × PyVal)) (k : String) : PyVal :=
  match o.find? (fun kv => kv.1 == k) with
  | some kv => kv.2
  | none => PyVal.null

/-- pd.DataFrame(data, columns=cols) for the shapes the service returns:
`data` a list of row lists, `cols` a list of labels.  pandas raises
ValueError when the number of labels does not match the width of nonempty
data; an empty data list yields an empty frame with the given columns.
Other data shapes are outside what this embedding models and map to
errors. -/
def pdDataFrameCols (data cols : PyVal) : Except PyExc DataFrame :=
  match data, cols with
  | .list rowvals, .list labels =>
      match allLists rowvals with
      | some rws =>
          if rws.isEmpty then
            .ok ⟨labels, []⟩
          else if labels.length = maxWidth rws then
            .ok ⟨labels, rws.map (padRow (maxWidth rws))⟩
          else
            .error (.valueError "mismatch between number of columns passed and width of data")
      | none => .error (.typeError "unmodelled data shape for DataFrame with explicit columns")
  | _, _ => .error (.valueError "DataFrame constructor not properly called")

/-- pd.DataFrame(xs) on a list: a list of dicts becomes a frame whose
columns are the keys in first-seen order with missing keys null; a list of
lists becomes a frame with integer RangeIndex columns and ragged rows
padded with null; a list of scalars becomes the single column 0.  Mixed
element types are outside what this embedding models. -/
def pdDataFrameOfList (xs : List PyVal) : Except PyExc DataFrame :=
  if xs.isEmpty then
    .ok ⟨[], []⟩
  else
    match allDicts xs with
    | some objs =>
        let keys := firstSeenKeys objs
        .ok ⟨keys.map PyVal.str, objs.map (fun o => keys.map (fun k => lookupOrNull o k))⟩
    | none =>
        match allLists xs with
        | some rws =>
            .ok ⟨(List.range (maxWidth rws)).map (fun i => PyVal.int (Int.ofNat i)),
                 rws.map (padRow (maxWidth rws))⟩
        | none =>
            if xs.all isScalar then
              .ok ⟨[PyVal.int 0], xs.map (fun x => [x])⟩
            else
              .error (.typeError "mixed element types are unmodelled for DataFrame")

namespace DuckDBFQEClient

/-- The shape dispatch of DuckDBFQEClient.execute_query_to_dataframe
(src/duckdb_client.py lines 101-108) applied to the executor's result:
`if 'data' in result and 'columns' in result:` (short-circuit, and `in`
raises TypeError on a non-iterable result), then
`pd.DataFrame(result['data'], columns=result['columns'])`; `elif
isinstance(result, list):` then `pd.DataFrame(result)`; else
`pd.DataFrame([result])`. -/
def normalize_result (result : PyVal) : Except PyExc DataFrame :=
  match pyContains result "data" with
  | .error e => .error e
  | .ok hasData =>
      match (if hasData then pyContains result "columns" else .ok false) with
      | .error e => .error e
      | .ok true =>
          match pySubscriptStr result "data" with
          | .error e => .error e
          | .ok d =>
              match pySubscriptStr result "columns" with
              | .error e => .error e
              | .ok c => pdDataFrameCols d c
      | .ok false =>
          match result with
          | .list xs => pdDataFrameOfList xs
          | other => pdDataFrameOfList [other]

/-- DuckDBFQEClient.execute_query_to_dataframe (src/duckdb_client.py lines
88-108): execute the query, then normalize its result. -/
def execute_query_to_dataframe (outcome : HttpOutcome) : Except PyExc DataFrame :=
  match execute_query outcome with
  | .error e => .error e
  | .ok result => normalize_result result

/-- The query string DuckDBFQEClient.count_rows builds
(src/duckdb_client.py line 155): note the `as count` alias. -/
def count_rows_query (table_name : String) : String :=
  "SELECT COUNT(*) as count FROM " ++ table_name

/-- The result reduction of DuckDBFQEClient.count_rows
(src/duckdb_client.py lines 158-164): a nonempty list takes
`result[0].get('count', 0)` (AttributeError when the first element is not
a dict); a dict containing the key 'data' takes
`result['data'][0][0] if result['data'] else 0`; everything else is 0. -/
def reduce_count (result : PyVal) : Except PyExc PyVal :=
  match result with
  | .list (r0 :: _) =>
      match r0 with
      | .dict kvs => .ok (pyDictGet kvs "count" (.int 0))
      | other => .error (.attributeError (other.typeName ++ " object has no attribute get"))
  | .dict kvs =>
      if kvs.any (fun kv => kv.1 == "data") then
        let d := pyDictGet kvs "data" PyVal.null
        if pyTruthy d then
          match pySubscriptZero d with
          | .error e => .error e
          | .ok row => pySubscriptZero row
        else
          .ok (.int 0)
      else
        .ok (.int 0)
  | _ => .ok (.int 0)

/-- DuckDBFQEClient.count_rows (src/duckdb_client.py lines 145-164):
builds the COUNT query, executes it (`send` maps the sent query to its
HTTP outcome) and reduces the result. -/
def count_rows (send : String → HttpOutcome) (table_name : String) : Except PyExc PyVal :=
  match execute_query (send (count_rows_query table_name)) with
  | .error e => .error e
  | .ok result => reduce_count result

/-- The SELECT clause of DuckDBFQEClient.execute_federated_join
(src/duckdb_client.py lines 184-187): `if select_columns:` is Python
truthiness, so None and the empty list both give "*". -/
def select_clause : Option (List String) → String
  | some (c :: cs) => String.intercalate ", " (c :: cs)
  | _ => "*"

/-- The FROM clause of DuckDBFQEClient.execute_federated_join
(src/duckdb_client.py lines 189-193): starting from tables[0], the loop
appends " JOIN tables[i] ON join_conditions[i-1]" only while
`i <= len(join_conditions)`, which pairs each later table with a join
condition and silently skips tables once the conditions run out — the
fold over the zip. -/
def build_from_clause (t0 : String) (rest join_conditions : List String) : String :=
  (rest.zip join_conditions).foldl
    (fun acc tc => acc ++ " JOIN " ++ tc.1 ++ " ON " ++ tc.2) t0

/-- The WHERE clause of DuckDBFQEClient.execute_federated_join
(src/duckdb_client.py lines 196-198): empty for None and for an empty
list. -/
def where_clause : Option (List String) → String
  | some (w :: ws) => " WHERE " ++ String.intercalate " AND " (w :: ws)
  | _ => ""

/-- The LIMIT clause of DuckDBFQEClient.execute_federated_join
(src/duckdb_client.py lines 201-203): `if limit:` is Python truthiness, so
None and 0 both give the empty clause. -/
def limit_clause : Option Int → String
  | some n => if n = 0 then "" else " LIMIT " ++ toString n
  | none => ""

/-- The query string DuckDBFQEClient.execute_federated_join constructs
(src/duckdb_client.py lines 183-206); `tables[0]` raises IndexError on an
empty table list. -/
def execute_federated_join_query (tables join_conditions : List String)
    (select_columns where_conditions : Option (List String))
    (limit : Option Int) : Except PyExc String :=
  match tables with
  | [] => .error (.indexError "list index out of range")
  | t0 :: rest =>
      .ok ("SELECT " ++ select_clause select_columns
            ++ " FROM " ++ build_from_clause t0 rest join_conditions
            ++ where_clause where_conditions ++ limit_clause limit)

/-- DuckDBFQEClient.execute_federated_join (src/duckdb_client.py lines
166-208): builds the query and executes it. -/
def execute_federated_join (send : String → HttpOutcome)
    (tables join_conditions : List String)
    (select_columns where_conditions : Option (List String))
    (limit : Option Int) : Except PyExc PyVal :=
  match execute_federated_join_query tables join_conditions
          select_columns where_conditions limit with
  | .error e => .error e
  | .ok query => execute_query (send query)

end DuckDBFQEClient

/-- The exception kind an execute_query outcome exposes to a caller that
dispatches with `except SomeClass` (none when no exception was raised). -/
def errKind : Except PyExc PyVal → Option String
  | .error e => some e.kind
  | .ok _ => none

/-! Helper lemmas. -/

/-- Zipping ignores the part of the left list beyond the right list's
length, which is how the join loop skips tables once the conditions run
out. -/
theorem zip_eq_zip_take (rest jcs : List String) :
    rest.zip jcs = (rest.take jcs.length).zip jcs := by
  induction rest generalizing jcs with
  | nil => simp
  | cons t ts ih =>
      cases jcs with
      | nil => simp
      | cons c cs => simp [List.zip_cons_cons, ih]

/-- A list of dicts never contains a given string as an element, so the
Python membership test `key in result` on a list-of-objects response is
False. -/
theorem any_key_map_dict (objs : List (List (String × PyVal))) (k : String) :
    ((objs.map PyVal.dict).any
      (fun x => match x with | .str s => s == k | _ => false)) = false := by
  induction objs with
  | nil => rfl
  | cons o rest ih => simp [ih]

/-- allLists recovers the rows from a list of row lists. -/
theorem allLists_map_list (rows : List (List PyVal)) :
    allLists (rows.map PyVal.list) = some rows := by
  induction rows with
  | nil => rfl
  | cons r rest ih => simp [allLists, ih]

/-- allDicts recovers the records from a list of dicts. -/
theorem allDicts_map_dict (objs : List (List (String × PyVal))) :
    allDicts (objs.map PyVal.dict) = some objs := by
  induction objs with
  | nil => rfl
  | cons o rest ih => simp [allDicts, ih]

/-- The width fold over rows of one common length. -/
theorem foldl_maxWidth (rows : List (List PyVal)) (w : Nat)
    (h : ∀ r ∈ rows, r.length = w) :
    ∀ a, rows ≠ [] → rows.foldl (fun m r => max m r.length) a = max a w := by
  induction rows with
  | nil => intro a hne; exact absurd rfl hne
  | cons r rest ih =>
      intro a _
      have hr : r.length = w := h r (by simp)
      by_cases hrest : rest = []
      · subst hrest; simp [hr]
      · have step := ih (fun s hs => h s (by simp [hs])) (max a r.length) hrest
        simp only [List.foldl_cons] at step ⊢
        rw [step, hr]
        omega

/-- Rows of one common length give that length as the frame width. -/
theorem maxWidth_eq (rows : List (List PyVal)) (w : Nat)
    (h : ∀ r ∈ rows, r.length = w) (hne : rows ≠ []) : maxWidth rows = w := by
  have := foldl_maxWidth rows w h 0 hne
  simpa [maxWidth] using this

/-- Padding to a row's own length changes nothing. -/
theorem map_padRow (rows : List (List PyVal)) (w : Nat)
    (h : ∀ r ∈ rows, r.length = w) : rows.map (padRow w) = rows := by
  induction rows with
  | nil => rfl
  | cons r rest ih =>
      have hr : r.length = w := h r (by simp)
      simp [padRow, hr, ih (fun s hs => h s (by simp [hs]))]

/-- When the membership test `'data' in result` on a list is False, the
shape dispatch reaches the `isinstance(result, list)` branch. -/
theorem normalize_result_list (xs : List PyVal)
    (h : (xs.any (fun x => match x with | .str s => s == "data" | _ => false)) = false) :
    DuckDBFQEClient.normalize_result (.list xs) = pdDataFrameOfList xs := by
  unfold DuckDBFQEClient.normalize_result
  rw [show pyContains (PyVal.list xs) "data" = .ok false by simp [pyContains, h]]
  rfl

/-- What the polling loop returns, by induction on the remaining wait
budget: true exactly when some probe, made every 2 seconds from elapsed
time `t` while the deadline has not passed, succeeds. -/
theorem waitLoop_result_aux (healthy : Nat → Bool) :
    ∀ d m t, m - t ≤ d →
      ((DuckDBFQEClient.waitLoop healthy m t).result = true ↔
        ∃ k, t + 2 * k < m ∧ healthy (t + 2 * k) = true) := by
  intro d
  induction d with
  | zero =>
      intro m t hd
      have hge : ¬ t < m := by omega
      unfold DuckDBFQEClient.waitLoop
      rw [dif_neg hge]
      simp only [Bool.false_eq_true, false_iff]
      rintro ⟨k, hk, -⟩
      omega
  | succ d ih =>
      intro m t hd
      unfold DuckDBFQEClient.waitLoop
      by_cases hlt : t < m
      · rw [dif_pos hlt]
        by_cases hh : healthy t = true
        · rw [if_pos hh]
          simp only [true_iff]
          exact ⟨0, by simpa using hlt, by simpa using hh⟩
        · rw [if_neg hh]
          have hrec := ih m (t + 2) (by omega)
          simp only [hrec]
          constructor
          · rintro ⟨k, hk, hhk⟩
            refine ⟨k + 1, by omega, ?_⟩
            have harg : t + 2 * (k + 1) = t + 2 + 2 * k := by omega
            rw [harg]
            exact hhk
          · rintro ⟨k, hk, hhk⟩
            cases k with
            | zero =>
                exfalso
                apply hh
                simpa using hhk
            | succ j =>
                refine ⟨j, by omega, ?_⟩
                have harg : t + 2 + 2 * j = t + 2 * (j + 1) := by omega
                rw [harg]
                exact hhk
      · rw [dif_neg hlt]
        simp only [Bool.false_eq_true, false_iff]
        rintro ⟨k, hk, -⟩
        omega

/-! Claim theorems. -/

/-- C1 (amended): on a non-200 response execute_query fails with a plain
Exception whose message carries the status code and the body verbatim; on
a network-level failure it also fails with a plain Exception; the two
failures have the same exception kind, so a caller can distinguish them
only by message text, not by exception type. -/
theorem C1_theorem :
    (∀ (code : Nat) (text : String) (jsonBody : Option PyVal), code ≠ 200 →
        DuckDBFQEClient.execute_query (.response code text jsonBody)
          = .error (.exception
              ("Query failed with status " ++ toString code ++ ": " ++ text)))
  ∧ (∀ msg : String,
        DuckDBFQEClient.execute_query (.requestException msg)
          = .error (.exception ("Request failed: " ++ msg)))
  ∧ (∀ (code : Nat) (text msg : String) (jsonBody : Option PyVal), code ≠ 200 →
        errKind (DuckDBFQEClient.execute_query (.response code text jsonBody))
          = errKind (DuckDBFQEClient.execute_query (.requestException msg))) := by
  refine ⟨?_, ?_, ?_⟩
  · intro code text jsonBody h
    simp [DuckDBFQEClient.execute_query, h]
  · intro msg
    rfl
  · intro code text msg jsonBody h
    simp [DuckDBFQEClient.execute_query, h, errKind, PyExc.kind]

/-- C1 witness: the amended behaviour at status 404 with body "not found"
and at a timed-out request. -/
theorem C1_witness :
    DuckDBFQEClient.execute_query (.response 404 "not found" none)
      = .error (.exception "Query failed with status 404: not found")
  ∧ DuckDBFQEClient.execute_query (.requestException "timed out")
      = .error (.exception "Request failed: timed out")
  ∧ errKind (DuckDBFQEClient.execute_query (.response 404 "not found" none))
      = errKind (DuckDBFQEClient.execute_query (.requestException "timed out")) :=
  ⟨C1_theorem.1 404 "not found" none (by decide),
   C1_theorem.2.1 "timed out",
   C1_theorem.2.2 404 "not found" "timed out" none (by decide)⟩

/-- C1 counterexample: a 500 response and a refused connection both fail
with the kind Exception — the claimed QueryError versus TransportError
distinction does not exist, so a caller cannot tell the two apart by
error kind. -/
theorem C1_counterexample :
    DuckDBFQEClient.execute_query (.response 500 "boom" none)
      = .error (.exception "Query failed with status 500: boom")
  ∧ DuckDBFQEClient.execute_query (.requestException "Connection refused")
      = .error (.exception "Request failed: Connection refused")
  ∧ errKind (DuckDBFQEClient.execute_query (.response 500 "boom" none))
      = errKind (DuckDBFQEClient.execute_query (.requestException "Connection refused")) :=
  ⟨rfl, rfl, rfl⟩

/-- C2 (amended): on a 200 response both execute_query functions return
the parsed JSON body; when the body does not parse as JSON, the tester's
execute_query returns the raw text wrapped as a single-field result, but
the client's execute_query raises — its JSON decode error is caught by
the RequestException handler and re-raised as a plain Exception. -/
theorem C2_theorem :
    (∀ (text : String) (v : PyVal),
        DuckDBFQETester.execute_query (.response 200 text (some v)) = some v)
  ∧ (∀ text : String,
        DuckDBFQETester.execute_query (.response 200 text none)
          = some (.dict [("result", .str text)]))
  ∧ (∀ (text : String) (v : PyVal),
        DuckDBFQEClient.execute_query (.response 200 text (some v)) = .ok v)
  ∧ (∀ text : String,
        DuckDBFQEClient.execute_query (.response 200 text none)
          = .error (.exception
              ("Request failed: " ++ DuckDBFQEClient.jsonDecodeErrMsg))) :=
  ⟨fun _ _ => rfl, fun _ => rfl, fun _ _ => rfl, fun _ => rfl⟩

/-- C2 counterexample: a 200 response whose body "hello" is not JSON makes
the client's execute_query fail instead of returning the wrapped raw
text the claim describes. -/
theorem C2_counterexample :
    DuckDBFQEClient.execute_query (.response 200 "hello" none)
      = .error (.exception
          ("Request failed: " ++ DuckDBFQEClient.jsonDecodeErrMsg)) := rfl

/-- C3 (amended): when join_conditions is shorter than tables.length - 1,
the tables beyond the last paired join condition are silently omitted
from the generated query — dropping them from the input changes nothing —
and the builder still succeeds rather than rejecting the mismatch. -/
theorem C3_theorem (t0 : String) (rest jcs : List String)
    (sel whr : Option (List String)) (lim : Option Int) :
    DuckDBFQEClient.execute_federated_join_query (t0 :: rest) jcs sel whr lim
      = DuckDBFQEClient.execute_federated_join_query
          (t0 :: rest.take jcs.length) jcs sel whr lim
  ∧ ∃ s, DuckDBFQEClient.execute_federated_join_query (t0 :: rest) jcs sel whr lim
        = .ok s := by
  constructor
  · have h : DuckDBFQEClient.build_from_clause t0 rest jcs
        = DuckDBFQEClient.build_from_clause t0 (rest.take jcs.length) jcs := by
      unfold DuckDBFQEClient.build_from_clause
      rw [zip_eq_zip_take]
    simp [DuckDBFQEClient.execute_federated_join_query, h]
  · exact ⟨_, rfl⟩

/-- C3 counterexample: with three tables and one join condition the third
table "c" does not appear in the generated SQL at all, against the
claim that it is appended without a join clause. -/
theorem C3_counterexample :
    DuckDBFQEClient.execute_federated_join_query
        ["a", "b", "c"] ["a.id=b.id"] none none none
      = .ok "SELECT * FROM a JOIN b ON a.id=b.id"
  ∧ (("SELECT * FROM a JOIN b ON a.id=b.id".data.contains 'c') = false) :=
  ⟨rfl, by decide⟩

/-- C4: the two federated-join examples of the spec produce exactly the
stated SQL strings. -/
theorem C4_theorem :
    DuckDBFQEClient.execute_federated_join_query ["a", "b", "c"]
        ["a.id=b.id", "b.id=c.id"] none none none
      = .ok "SELECT * FROM a JOIN b ON a.id=b.id JOIN c ON b.id=c.id"
  ∧ DuckDBFQEClient.execute_federated_join_query ["a", "b"] ["a.id=b.id"]
        (some ["a.x"]) (some ["a.x>1"]) (some 10)
      = .ok "SELECT a.x FROM a JOIN b ON a.id=b.id WHERE a.x>1 LIMIT 10" :=
  ⟨rfl, rfl⟩

/-- C5: with max_wait = 0 the polling loop returns false having made no
health probe and no sleep; in general wait_for_ready returns true exactly
when some probe, made every 2 seconds while the deadline has not passed,
succeeds. -/
theorem C5_theorem :
    (∀ healthy : Nat → Bool,
        DuckDBFQEClient.waitLoop healthy 0 0 = ⟨false, 0, 0⟩)
  ∧ (∀ healthy : Nat → Bool, DuckDBFQEClient.wait_for_ready healthy 0 = false)
  ∧ (∀ (healthy : Nat → Bool) (max_wait : Nat),
        DuckDBFQEClient.wait_for_ready healthy max_wait = true ↔
          ∃ k, 2 * k < max_wait ∧ healthy (2 * k) = true) := by
  refine ⟨?_, ?_, ?_⟩
  · intro healthy
    unfold DuckDBFQEClient.waitLoop
    simp
  · intro healthy
    unfold DuckDBFQEClient.wait_for_ready DuckDBFQEClient.waitLoop
    simp
  · intro healthy max_wait
    unfold DuckDBFQEClient.wait_for_ready
    have h := waitLoop_result_aux healthy max_wait max_wait 0 (by omega)
    simpa using h

/-- C6: is_healthy is a total boolean — true exactly when the request
produced a response with status 200, false on any other status and on any
transport error (a raised RequestException is swallowed into false, never
re-raised). -/
theorem C6_theorem (outcome : HttpOutcome) :
    DuckDBFQEClient.is_healthy outcome = true ↔
      ∃ text jsonBody, outcome = HttpOutcome.response 200 text jsonBody := by
  cases outcome with
  | response code text jb => simp [DuckDBFQEClient.is_healthy]
  | requestException msg => simp [DuckDBFQEClient.is_healthy]

/-- C7 (amended): count_rows sends SELECT COUNT(*) as count FROM <table>
(with the alias); a nonempty list result is reduced by the first row's
value for the key "count", a dict result with key "data" by the first
row's first column, an empty result of either shape gives 0. -/
theorem C7_theorem :
    (∀ t : String,
        DuckDBFQEClient.count_rows_query t = "SELECT COUNT(*) as count FROM " ++ t)
  ∧ (∀ (v : PyVal) (rows : List PyVal) (t : String),
        DuckDBFQEClient.count_rows
            (fun _ => .response 200 "" (some (.list (.dict [("count", v)] :: rows)))) t
          = .ok v)
  ∧ (∀ t : String,
        DuckDBFQEClient.count_rows (fun _ => .response 200 "" (some (.list []))) t
          = .ok (.int 0))
  ∧ (∀ (v : PyVal) (cells rows : List PyVal) (t : String),
        DuckDBFQEClient.count_rows
            (fun _ => .response 200 ""
              (some (.dict [("data", .list (.list (v :: cells) :: rows))]))) t
          = .ok v)
  ∧ (∀ t : String,
        DuckDBFQEClient.count_rows
            (fun _ => .response 200 "" (some (.dict [("data", .list [])]))) t
          = .ok (.int 0)) :=
  ⟨fun _ => rfl, fun _ _ _ => rfl, fun _ => rfl, fun _ _ _ _ => rfl, fun _ => rfl⟩

/-- C7 counterexample: the query string carries the alias `as count`, so
it is not the claimed SELECT COUNT(*) FROM t; and the reduction takes the
key "count", not the first column — a one-row result keyed "n" yields 0,
not its scalar 5. -/
theorem C7_counterexample :
    DuckDBFQEClient.count_rows_query "t" = "SELECT COUNT(*) as count FROM t"
  ∧ DuckDBFQEClient.count_rows_query "t" ≠ "SELECT COUNT(*) FROM t"
  ∧ DuckDBFQEClient.reduce_count (.list [.dict [("n", .int 5)]]) = .ok (.int 0) :=
  ⟨rfl, by decide, rfl⟩

/-- C8: the normalizer is not total — a 200 response whose JSON body is
the scalar 5 makes the membership test `'data' in result` raise
TypeError, where the claim (and the spec's totality contract) requires a
one-row, one-column fallback result. -/
theorem C8_theorem :
    DuckDBFQEClient.execute_query_to_dataframe (.response 200 "5" (some (.int 5)))
      = .error (.typeError "argument of type int is not iterable")
  ∧ DuckDBFQEClient.normalize_result (.int 5)
      = .error (.typeError "argument of type int is not iterable") :=
  ⟨rfl, rfl⟩

/-- C9: a well-formed tabular {data, columns} result is normalized with
row order and column order preserved exactly; a list-of-objects result is
normalized to the union of keys in first-seen order as columns, each cell
the object's value for that key, null when the key is absent. -/
theorem C9_theorem :
    (∀ (cols : List PyVal) (rows : List (List PyVal)),
        (∀ r ∈ rows, r.length = cols.length) →
        DuckDBFQEClient.normalize_result
            (.dict [("data", .list (rows.map PyVal.list)), ("columns", .list cols)])
          = .ok ⟨cols, rows⟩)
  ∧ (∀ objs : List (List (String × PyVal)),
        DuckDBFQEClient.normalize_result (.list (objs.map PyVal.dict))
          = .ok ⟨(firstSeenKeys objs).map PyVal.str,
                 objs.map (fun o => (firstSeenKeys objs).map (fun k => lookupOrNull o k))⟩) := by
  constructor
  · intro cols rows h
    have key : DuckDBFQEClient.normalize_result
        (.dict [("data", PyVal.list (rows.map PyVal.list)), ("columns", PyVal.list cols)])
        = pdDataFrameCols (PyVal.list (rows.map PyVal.list)) (PyVal.list cols) := rfl
    rw [key]
    simp only [pdDataFrameCols, allLists_map_list]
    cases rows with
    | nil => simp
    | cons r rs =>
        have hmw : maxWidth (r :: rs) = cols.length := maxWidth_eq _ _ h (by simp)
        have hpad := map_padRow (r :: rs) cols.length h
        simp [hmw, hpad]
  · intro objs
    rw [normalize_result_list _ (any_key_map_dict objs "data")]
    simp only [pdDataFrameOfList, allDicts_map_dict]
    cases objs with
    | nil => simp [firstSeenKeys]
    | cons o os => simp

/-- C9 witness: the tabular and list-of-objects cases at concrete inputs,
one object missing the key of the other. -/
theorem C9_witness :
    DuckDBFQEClient.normalize_result
        (.dict [("data", .list [.list [.int 1, .int 2]]),
                ("columns", .list [.str "a", .str "b"])])
      = .ok ⟨[.str "a", .str "b"], [[.int 1, .int 2]]⟩
  ∧ DuckDBFQEClient.normalize_result
        (.list [.dict [("a", .int 1)], .dict [("b", .int 2)]])
      = .ok ⟨[.str "a", .str "b"], [[.int 1, PyVal.null], [PyVal.null, .int 2]]⟩ := by
  constructor
  · exact C9_theorem.1 [.str "a", .str "b"] [[.int 1, .int 2]] (by simp)
  · exact C9_theorem.2 [[("a", .int 1)], [("b", .int 2)]]

/-- C10: a zero limit is truthiness-tested, so it produces the same query
as an absent limit — no LIMIT clause is generated. -/
theorem C10_theorem (tables join_conditions : List String)
    (sel whr : Option (List String)) :
    DuckDBFQEClient.execute_federated_join_query tables join_conditions sel whr (some 0)
      = DuckDBFQEClient.execute_federated_join_query tables join_conditions sel whr none := by
  cases tables with
  | nil => rfl
  | cons t0 rest =>
      simp [DuckDBFQEClient.execute_federated_join_query, DuckDBFQEClient.limit_clause]
